import Mathlib

/-! Verification of the StellArts front-end home components: the
formatCount display formatter, the Hero component (artisan category
counts fetched from the backend) and the Stats widget (platform
statistics), together with an action-trace model of their mount
effects.  JavaScript numbers are idealised as exact rationals. -/

/-- Model of the parsed JSON object of trade-category counts consumed by
the Hero component.  The TypeScript interface ArtisanCounts carries an
index signature (arbitrary string keys mapping to numbers) and the value
of r.json() is stored without validation, so any field may be absent at
runtime; an association list of string keys to numbers captures this. -/
abbrev ArtisanCounts : Type := List (String × ℚ)

/-- Property access on a parsed JSON object: the field value when the key
is present, undefined (here none) otherwise. -/
def getField (o : ArtisanCounts) (k : String) : Option ℚ :=
  (o.find? (fun p => p.1 == k)).map (fun p => p.2)

/-- The PlatformStats interface of the Stats widget: artisan count,
completed booking count, and a nullable average rating. -/
structure PlatformStats : Type where
  artisan_count : ℚ
  completed_bookings : ℚ
  average_rating : Option ℚ

/-- Least k with den dividing 10 ^ k, searched up to den itself.  The
search succeeds exactly for denominators of the form 2 ^ a * 5 ^ b,
which are the only denominators an exact binary float can have. -/
def decimalDigitsLen (den : ℕ) : Option ℕ :=
  (List.range (den + 1)).find? (fun k => 10 ^ k % den == 0)

/-- Left-pads a digit string with zeros up to width k. -/
def padZeros (k : ℕ) (s : String) : String :=
  if k ≤ s.length then s else String.mk (List.replicate (k - s.length) '0') ++ s

/-- Model of the JavaScript number-to-string conversion used by template
literals: integers render in decimal; non-integers with a finite decimal
expansion render as that expansion (idealisation of the shortest
round-trip rendering of a binary float); remaining rationals, which are
unreachable as exact floats, fall back to a fraction rendering. -/
def jsNumToString (q : ℚ) : String :=
  if q.den = 1 then toString q.num
  else
    match decimalDigitsLen q.den with
    | some k =>
        let scaled : ℕ := q.num.natAbs * 10 ^ k / q.den
        (if q.num < 0 then "-" else "") ++
          toString (scaled / 10 ^ k) ++ "." ++ padZeros k (toString (scaled % 10 ^ k))
    | none => toString q.num ++ "/" ++ toString q.den

/-- Digit string of toFixed(1) for a non-negative value: the value scaled
by ten and rounded to the nearest integer, ties towards the larger
integer as in the ECMAScript Number.prototype.toFixed algorithm, printed
with the last digit placed after a decimal point. -/
def toFixedDigits (q : ℚ) : String :=
  toString (⌊q * 10 + 1 / 2⌋ / 10) ++ "." ++ toString (⌊q * 10 + 1 / 2⌋ % 10)

/-- Model of the JavaScript call x.toFixed(1): the ECMAScript algorithm
splits off the sign and rounds the magnitude to tenths. -/
def jsToFixed1 (q : ℚ) : String :=
  if q < 0 then "-" ++ toFixedDigits (-q) else toFixedDigits q

/-- Translation of formatCount: undefined or zero gives the placeholder,
a value at or above 1000 gives the toFixed(1) abbreviation with a K+
suffix, and any other value is rendered followed by " available". -/
def formatCount (n : Option ℚ) : String :=
  match n with
  | none => "Coming soon"
  | some q =>
      if q = 0 then "Coming soon"
      else if 1000 ≤ q then jsToFixed1 (q / 1000) ++ "K+"
      else jsNumToString q ++ " available"

/-- Translation of API_BASE, the value of process.env.NEXT_PUBLIC_API_URL
short-circuit-or the localhost default: the environment value when it is
set and truthy (a set but empty string is falsy in JavaScript), the
default address otherwise. -/
def API_BASE (env : Option String) : String :=
  match env with
  | some s => if s = "" then "http://localhost:8000" else s
  | none => "http://localhost:8000"

/-- An outbound HTTP request as issued by the components. -/
structure Request : Type where
  method : String
  url : String
  body : Option String
  headers : List (String × String)

/-- Model of a call fetch(url) with no init argument: a plain GET carrying
no body and no custom headers. -/
def fetchReq (url : String) : Request :=
  ⟨"GET", url, none, []⟩

/-- The settled outcome of a fetch-and-parse promise chain: a parsed
payload, or a failure anywhere along the chain. -/
inductive FetchResult (α : Type) : Type where
  | success : α → FetchResult α
  | failure : FetchResult α

/-- Observable actions of a component: an outbound network read, or a
write to one of the two local display states. -/
inductive UiAction : Type where
  | netRead : Request → UiAction
  | setHeroCounts : Option ArtisanCounts → UiAction
  | setPlatformStats : Option PlatformStats → UiAction

/-- URL requested by the Hero mount effect. -/
def heroCountsUrl (env : Option String) : String :=
  API_BASE env ++ "/api/v1/artisans/counts"

/-- URL requested by the Stats mount effect. -/
def statsUrl (env : Option String) : String :=
  API_BASE env ++ "/api/v1/stats/"

/-- Actions of the Hero mount effect, given the settled outcome of its
promise chain: one fetch of the counts URL, then exactly one state
update — setCounts(data) on success (the parsed payload stored without
validation), setCounts(null) from the catch handler on failure. -/
def heroEffectActions (env : Option String) (outcome : FetchResult ArtisanCounts) :
    List UiAction :=
  [UiAction.netRead (fetchReq (heroCountsUrl env)),
   match outcome with
   | FetchResult.success d => UiAction.setHeroCounts (some d)
   | FetchResult.failure => UiAction.setHeroCounts none]

/-- Dependency list of the Hero effect: empty, so React runs the effect
once, when the component is first displayed. -/
def heroEffectDeps : List String := []

/-- Actions of the Stats mount effect, in the same shape as the Hero
effect: one fetch of the stats URL, then exactly one state update. -/
def statsEffectActions (env : Option String) (outcome : FetchResult PlatformStats) :
    List UiAction :=
  [UiAction.netRead (fetchReq (statsUrl env)),
   match outcome with
   | FetchResult.success d => UiAction.setPlatformStats (some d)
   | FetchResult.failure => UiAction.setPlatformStats none]

/-- Dependency list of the Stats effect: also empty. -/
def statsEffectDeps : List String := []

/-- The network reads among a list of actions. -/
def netReadsOf (acts : List UiAction) : List Request :=
  acts.filterMap (fun a =>
    match a with
    | UiAction.netRead r => some r
    | _ => none)

/-- The number of state writes among a list of actions. -/
def stateWritesOf (acts : List UiAction) : ℕ :=
  (acts.filter (fun a =>
    match a with
    | UiAction.netRead _ => false
    | _ => true)).length

/-- Caption of the Plumbers card: formatCount of the plumbers field once
counts is non-null, the static text before any response. -/
def heroPlumbersText (counts : Option ArtisanCounts) : String :=
  match counts with
  | some c => formatCount (getField c "plumbers")
  | none => "Near you"

/-- Caption of the Electricians card. -/
def heroElectriciansText (counts : Option ArtisanCounts) : String :=
  match counts with
  | some c => formatCount (getField c "electricians")
  | none => "On demand"

/-- Caption of the Carpenters card. -/
def heroCarpentersText (counts : Option ArtisanCounts) : String :=
  match counts with
  | some c => formatCount (getField c "carpenters")
  | none => "Verified"

/-- Caption of the Painters card. -/
def heroPaintersText (counts : Option ArtisanCounts) : String :=
  match counts with
  | some c => formatCount (getField c "painters")
  | none => "Top rated"

/-- The four Hero card captions in page order. -/
def heroCardTexts (counts : Option ArtisanCounts) : List String :=
  [heroPlumbersText counts, heroElectriciansText counts,
   heroCarpentersText counts, heroPaintersText counts]

/-- Active-artisans figure of the Stats widget: the count with a plus
sign once stats is non-null, an em dash before. -/
def statsArtisansText (stats : Option PlatformStats) : String :=
  match stats with
  | some s => jsNumToString s.artisan_count ++ "+"
  | none => "—"

/-- Jobs-completed figure of the Stats widget. -/
def statsBookingsText (stats : Option PlatformStats) : String :=
  match stats with
  | some s => jsNumToString s.completed_bookings ++ "+"
  | none => "—"

/-- Average-rating figure of the Stats widget.  The optional chain on
stats yields undefined when stats is null, and the conditional then
tests JavaScript truthiness, so a null stats, a null average_rating and
an exact zero rating all fall to the "New" caption. -/
def statsRatingText (stats : Option PlatformStats) : String :=
  match stats with
  | some s =>
      match s.average_rating with
      | some r => if r = 0 then "New" else jsToFixed1 r ++ "★"
      | none => "New"
  | none => "New"

/-- The three Stats widget figures in page order. -/
def statsTexts (stats : Option PlatformStats) : List String :=
  [statsArtisansText stats, statsBookingsText stats, statsRatingText stats]

/-- Ambient mutable world for the purity analysis of formatCount: a map
of named global cells. -/
abbrev World : Type := List (String × String)

/-- State-passing translation of the formatCount body.  Every branch of
the source consists of literals and operations on the argument alone, so
each branch returns its string with the incoming world untouched. -/
def formatCountImp (w : World) (n : Option ℚ) : String × World :=
  match n with
  | none => ("Coming soon", w)
  | some q =>
      if q = 0 then ("Coming soon", w)
      else if 1000 ≤ q then (jsToFixed1 (q / 1000) ++ "K+", w)
      else (jsNumToString q ++ " available", w)

/-- Rendering an integral rational is rendering its integer numerator. -/
theorem jsNumToString_intCast (n : ℤ) : jsNumToString ((n : ℚ)) = toString n := by
  simp [jsNumToString, Rat.den_intCast, Rat.num_intCast]

/-- The world passes unchanged through formatCountImp and the string
component agrees with the pure formatCount. -/
theorem formatCountImp_eq (w : World) (n : Option ℚ) :
    formatCountImp w n = (formatCount n, w) := by
  cases n with
  | none => rfl
  | some q =>
      simp only [formatCountImp, formatCount]
      by_cases h0 : q = 0
      · rw [if_pos h0, if_pos h0]
      · rw [if_neg h0, if_neg h0]
        by_cases h1 : (1000 : ℚ) ≤ q
        · rw [if_pos h1, if_pos h1]
        · rw [if_neg h1, if_neg h1]

/-- A string ending in " available" has last character e. -/
theorem append_available_getLast (s : String) :
    (s ++ " available").data.getLast? = some 'e' := by
  have hne : " available".data ≠ [] := by decide
  rw [String.data_append, List.getLast?_append_of_ne_nil s.data hne]
  rfl

/-- A string ending in "K+" has last character +. -/
theorem kplus_getLast (t : String) :
    (t ++ "K+").data.getLast? = some '+' := by
  have hne : "K+".data ≠ [] := by decide
  rw [String.data_append, List.getLast?_append_of_ne_nil t.data hne]
  rfl

/-- Claim C1: for an input that is undefined or equal to 0, formatCount
returns the "Coming soon" placeholder string. -/
theorem formatCount_placeholder (n : Option ℚ) (h : n = none ∨ n = some 0) :
    formatCount n = "Coming soon" := by
  rcases h with h | h <;> subst h <;> simp [formatCount]

/-- Witness for C1 at the two concrete inputs. -/
theorem formatCount_placeholder_witness :
    formatCount none = "Coming soon" ∧ formatCount (some 0) = "Coming soon" :=
  ⟨formatCount_placeholder none (Or.inl rfl),
   formatCount_placeholder (some 0) (Or.inr rfl)⟩

/-- Claim C2: for every integer n with 1 ≤ n ≤ 999, formatCount returns
the decimal rendering of n followed by " available". -/
theorem formatCount_hundreds (n : ℤ) (h1 : 1 ≤ n) (h2 : n ≤ 999) :
    formatCount (some ((n : ℚ))) = toString n ++ " available" := by
  have hne : (n : ℚ) ≠ 0 := by
    have h : n ≠ 0 := by omega
    exact_mod_cast h
  have hlt : ¬ (1000 : ℚ) ≤ (n : ℚ) := by
    have h : ¬ (1000 : ℤ) ≤ n := by omega
    exact_mod_cast h
  simp only [formatCount]
  rw [if_neg hne, if_neg hlt, jsNumToString_intCast]

/-- Witness for C2 at n = 42. -/
theorem formatCount_hundreds_witness :
    (1 : ℤ) ≤ 42 ∧ (42 : ℤ) ≤ 999 ∧ formatCount (some 42) = "42 available" := by
  refine ⟨by norm_num, by norm_num, ?_⟩
  have h := formatCount_hundreds 42 (by norm_num) (by norm_num)
  norm_num at h
  rw [h]
  rfl

/-- Claim C3: for a value at or above 1000, formatCount returns the
quotient by 1000 rounded to tenths (nearest, ties towards the larger),
printed with one digit after the decimal point, followed by "K+". -/
theorem formatCount_thousands (q : ℚ) (h : 1000 ≤ q) :
    formatCount (some q) =
      toString (⌊q / 1000 * 10 + 1 / 2⌋ / 10) ++ "." ++
        toString (⌊q / 1000 * 10 + 1 / 2⌋ % 10) ++ "K+" := by
  have h0 : (0 : ℚ) < q := lt_of_lt_of_le (by norm_num) h
  have hne : q ≠ 0 := ne_of_gt h0
  have hneg : ¬ (q / 1000 < 0) := not_lt.mpr (le_of_lt (div_pos h0 (by norm_num)))
  simp only [formatCount]
  rw [if_neg hne, if_pos h]
  simp only [jsToFixed1]
  rw [if_neg hneg]
  simp only [toFixedDigits]

/-- Witness for C3 at n = 1500, yielding "1.5K+". -/
theorem formatCount_thousands_witness :
    (1000 : ℚ) ≤ 1500 ∧ formatCount (some 1500) = "1.5K+" := by
  refine ⟨by norm_num, ?_⟩
  rw [formatCount_thousands 1500 (by norm_num)]
  have h1 : (1500 : ℚ) / 1000 * 10 + 1 / 2 = 31 / 2 := by norm_num
  rw [h1]
  have h2 : ⌊(31 : ℚ) / 2⌋ = 15 := by norm_num [Int.floor_eq_iff]
  rw [h2]
  rfl

/-- Claim C4: on fetch failure each component writes null into its local
state and performs nothing else, and the null state renders as the
placeholders — the four static Hero card captions and the em dash, em
dash, "New" figures of the Stats widget. -/
theorem failure_fallback (env : Option String) :
    heroEffectActions env FetchResult.failure =
      [UiAction.netRead (fetchReq (heroCountsUrl env)), UiAction.setHeroCounts none]
    ∧ statsEffectActions env FetchResult.failure =
      [UiAction.netRead (fetchReq (statsUrl env)), UiAction.setPlatformStats none]
    ∧ heroCardTexts none = ["Near you", "On demand", "Verified", "Top rated"]
    ∧ statsTexts none = ["—", "—", "New"] :=
  ⟨rfl, rfl, rfl, rfl⟩

/-- Claim C5: each fetching component has an empty effect dependency
list, so its effect runs once on first display; the effect performs
exactly one network read, and the settled outcome — success or failure —
is applied to local display state by exactly one write. -/
theorem single_fetch_single_update (env : Option String)
    (oh : FetchResult ArtisanCounts) (os : FetchResult PlatformStats) :
    heroEffectDeps = []
    ∧ statsEffectDeps = []
    ∧ (netReadsOf (heroEffectActions env oh)).length = 1
    ∧ stateWritesOf (heroEffectActions env oh) = 1
    ∧ (netReadsOf (statsEffectActions env os)).length = 1
    ∧ stateWritesOf (statsEffectActions env os) = 1 := by
  refine ⟨rfl, rfl, ?_, ?_, ?_, ?_⟩ <;> cases oh <;> cases os <;> rfl

/-- Claim C6: the only outbound requests are plain GET reads of the
artisans-counts and stats URLs under API_BASE, with no body and no
headers; API_BASE is the configurable environment value and defaults to
localhost:8000 when the variable is unset. -/
theorem requests_shape (env : Option String)
    (oh : FetchResult ArtisanCounts) (os : FetchResult PlatformStats) :
    netReadsOf (heroEffectActions env oh) =
      [⟨"GET", API_BASE env ++ "/api/v1/artisans/counts", none, []⟩]
    ∧ netReadsOf (statsEffectActions env os) =
      [⟨"GET", API_BASE env ++ "/api/v1/stats/", none, []⟩]
    ∧ API_BASE none = "http://localhost:8000"
    ∧ (∀ s : String, s ≠ "" → API_BASE (some s) = s) := by
  refine ⟨?_, ?_, rfl, ?_⟩
  · cases oh <;> rfl
  · cases os <;> rfl
  · intro s hs
    simp only [API_BASE]
    rw [if_neg hs]

/-- Witness for C6: concrete request of the Hero component under an unset
environment, and a configured base address passing through. -/
theorem requests_shape_witness :
    netReadsOf (heroEffectActions none FetchResult.failure) =
      [⟨"GET", "http://localhost:8000/api/v1/artisans/counts", none, []⟩]
    ∧ API_BASE (some "https://api.example.org") = "https://api.example.org" := by
  refine ⟨?_, (requests_shape none FetchResult.failure FetchResult.failure).2.2.2
    "https://api.example.org" (by decide)⟩
  have h := (requests_shape none FetchResult.failure FetchResult.failure).1
  rw [h]
  rfl

/-- Claim C7: formatCount is pure and deterministic.  In the
state-passing embedding, two evaluations on equal inputs under arbitrary
ambient worlds return the same string, the world passes through
untouched, and the result agrees with the pure formatCount. -/
theorem formatCount_pure (w₁ w₂ : World) (n₁ n₂ : Option ℚ) (h : n₁ = n₂) :
    (formatCountImp w₁ n₁).1 = (formatCountImp w₂ n₂).1
    ∧ (formatCountImp w₁ n₁).2 = w₁
    ∧ (formatCountImp w₁ n₁).1 = formatCount n₁ := by
  subst h
  rw [formatCountImp_eq, formatCountImp_eq]
  exact ⟨rfl, rfl, rfl⟩

/-- Witness for C7: two evaluations at 7 under different worlds. -/
theorem formatCount_pure_witness :
    (formatCountImp [("session", "abc")] (some 7)).1 =
      (formatCountImp [] (some 7)).1
    ∧ (formatCountImp [("session", "abc")] (some 7)).2 = [("session", "abc")] :=
  ⟨(formatCount_pure [("session", "abc")] [] (some 7) (some 7) rfl).1,
   (formatCount_pure [("session", "abc")] [] (some 7) (some 7) rfl).2.1⟩

/-- Claim C8: after a successful load the rating slot shows the
one-decimal rating with a star only when average_rating is present and
non-zero; a null rating and an exact zero rating both render as "New". -/
theorem rating_slot (s : PlatformStats) :
    (∀ r : ℚ, s.average_rating = some r → r ≠ 0 →
        statsRatingText (some s) = jsToFixed1 r ++ "★")
    ∧ (s.average_rating = none → statsRatingText (some s) = "New")
    ∧ (s.average_rating = some 0 → statsRatingText (some s) = "New") := by
  refine ⟨?_, ?_, ?_⟩
  · intro r hr hne
    simp [statsRatingText, hr, hne]
  · intro hr
    simp [statsRatingText, hr]
  · intro hr
    simp [statsRatingText, hr]

/-- Witness for C8: a 4.5 rating renders with a star, while a zero
rating and an absent rating both render as "New". -/
theorem rating_slot_witness :
    statsRatingText (some ⟨120, 45, some (9 / 2)⟩) = "4.5★"
    ∧ statsRatingText (some ⟨120, 45, some 0⟩) = "New"
    ∧ statsRatingText (some ⟨120, 45, none⟩) = "New" := by
  refine ⟨?_, (rating_slot _).2.2 rfl, (rating_slot _).2.1 rfl⟩
  rw [(rating_slot _).1 (9 / 2) rfl (by norm_num)]
  simp only [jsToFixed1]
  rw [if_neg (by norm_num : ¬ ((9 : ℚ) / 2 < 0))]
  simp only [toFixedDigits]
  have h1 : (9 : ℚ) / 2 * 10 + 1 / 2 = 91 / 2 := by norm_num
  rw [h1]
  have h2 : ⌊(91 : ℚ) / 2⌋ = 45 := by norm_num [Int.floor_eq_iff]
  rw [h2]
  rfl

/-- Claim C9: the middle branch of formatCount covers every defined
non-zero value strictly below 1000, negatives and non-integers included:
the result is the rendering of the value followed by " available", never
the placeholder and never the K+ form. -/
theorem formatCount_middle (q : ℚ) (h0 : q ≠ 0) (hlt : q < 1000) :
    formatCount (some q) = jsNumToString q ++ " available"
    ∧ formatCount (some q) ≠ "Coming soon"
    ∧ (∀ t : String, formatCount (some q) ≠ t ++ "K+") := by
  have hge : ¬ (1000 : ℚ) ≤ q := not_le.mpr hlt
  have heq : formatCount (some q) = jsNumToString q ++ " available" := by
    simp only [formatCount]
    rw [if_neg h0, if_neg hge]
  refine ⟨heq, ?_, ?_⟩
  · rw [heq]
    intro hc
    have h1 := append_available_getLast (jsNumToString q)
    rw [hc] at h1
    exact absurd h1 (by decide)
  · intro t
    rw [heq]
    intro hc
    have h1 := append_available_getLast (jsNumToString q)
    rw [hc, kplus_getLast t] at h1
    exact absurd h1 (by decide)

/-- Witness for C9 at the negative input -5, which renders as
"-5 available". -/
theorem formatCount_middle_witness :
    ((-5 : ℚ) ≠ 0) ∧ ((-5 : ℚ) < 1000)
    ∧ formatCount (some (-5)) = "-5 available" := by
  refine ⟨by norm_num, by norm_num, ?_⟩
  rw [(formatCount_middle (-5) (by norm_num) (by norm_num)).1]
  decide

/-- Claim C10: a stored response is not validated, so once counts is
non-null a missing plumbers field renders the card as "Coming soon",
exactly as a present count of 0 does, while the null state before any
response shows the distinct static caption instead. -/
theorem hero_unvalidated (o : ArtisanCounts) (h : getField o "plumbers" = none) :
    heroPlumbersText (some o) = "Coming soon"
    ∧ heroPlumbersText (some o) = formatCount (some 0)
    ∧ (∀ o2 : ArtisanCounts, getField o2 "plumbers" = some 0 →
        heroPlumbersText (some o2) = heroPlumbersText (some o))
    ∧ heroPlumbersText none = "Near you"
    ∧ heroPlumbersText none ≠ "Coming soon" := by
  have h1 : heroPlumbersText (some o) = "Coming soon" := by
    simp [heroPlumbersText, h, formatCount]
  refine ⟨h1, ?_, ?_, rfl, by decide⟩
  · rw [h1]
    decide
  · intro o2 h2
    rw [h1]
    simp [heroPlumbersText, h2, formatCount]

/-- Witness for C10: the empty parsed object misses the plumbers field
and renders as "Coming soon", identically to an object carrying an
explicit zero count. -/
theorem hero_unvalidated_witness :
    getField [] "plumbers" = none
    ∧ heroPlumbersText (some []) = "Coming soon"
    ∧ heroPlumbersText (some [("plumbers", 0)]) = heroPlumbersText (some []) :=
  ⟨rfl, (hero_unvalidated [] rfl).1,
   (hero_unvalidated [] rfl).2.2.1 [("plumbers", 0)] rfl⟩
